import Mathlib

/-!
Shallow embedding of `LiquidCrystal_SR3W.cpp` (New-LiquidCrystal), the 3-wire
shift-register LCD driver, together with proofs of the specified properties.

Machine integers (`uint8_t`) are modelled as `Nat` with explicit `% 256`
truncation where the C code stores into an 8-bit field.  The driver's side
effects on the shift register are modelled as traces: a high-level operation
returns the list of byte arguments it passes to `loadSR`, in call order, and
`loadSR` itself returns the list of low-level line events it produces.
-/

namespace SR3W

/-- Modelled from the spec: the polarity type `t_backlighPol` comes from a
header that is not part of the sources here; the spec names the two values
ACTIVE_HIGH (source: `POSITIVE`) and ACTIVE_LOW (source: `NEGATIVE`). -/
inductive t_backlighPol where
  | POSITIVE
  | NEGATIVE
deriving DecidableEq, Repr

export t_backlighPol (POSITIVE NEGATIVE)

/-- Modelled from the spec: mode flag `COMMAND` from the missing `LCD.h`
header.  The spec requires that tagging a transfer as COMMAND leaves the
Register-Select bit clear; since `write4bits` ORs the mode value into the
byte verbatim when it is not `DATA`, COMMAND must be the zero byte. -/
def COMMAND : Nat := 0

/-- Modelled from the spec: mode flag `DATA` from the missing `LCD.h` header;
a value distinct from COMMAND and FOUR_BITS. -/
def DATA : Nat := 1

/-- Modelled from the spec: mode flag `FOUR_BITS` from the missing `LCD.h`
header; a value distinct from COMMAND and DATA. -/
def FOUR_BITS : Nat := 2

/-- Modelled from the spec: display-function flag `LCD_4BITMODE` from the
missing `LCD.h` header (HD44780 function-set bit for 4-bit interface). -/
def LCD_4BITMODE : Nat := 0x00

/-- Modelled from the spec: display-function flag `LCD_1LINE` from the
missing `LCD.h` header (HD44780 function-set bit for one display line). -/
def LCD_1LINE : Nat := 0x00

/-- Modelled from the spec: display-function flag `LCD_5x10DOTS` from the
missing `LCD.h` header (HD44780 function-set bit for the 5x10 font). -/
def LCD_5x10DOTS : Nat := 0x04

/-- `LCD_NOBACKLIGHT`: mask used when the backlight is off (source line 75). -/
def LCD_NOBACKLIGHT : Nat := 0x00

/-- `LCD_BACKLIGHT`: mask used when the backlight is on (source line 82). -/
def LCD_BACKLIGHT : Nat := 0xFF

/-- Default Enable bit position (source `#define EN 4`). -/
def EN : Nat := 4

/-- Default Read/Write bit position (source `#define RW 5`). -/
def RW : Nat := 5

/-- Default Register-Select bit position (source `#define RS 6`). -/
def RS : Nat := 6

/-- Default D4 bit position (source `#define D4 0`). -/
def D4 : Nat := 0

/-- Default D5 bit position (source `#define D5 1`). -/
def D5 : Nat := 1

/-- Default D6 bit position (source `#define D6 2`). -/
def D6 : Nat := 2

/-- Default D7 bit position (source `#define D7 3`). -/
def D7 : Nat := 3

/-- Modelled from the spec: `fio_pinToBit` of the missing FastIO layer
resolves a pin identifier to a low-level bit handle; the handle is opaque to
this driver, so it is modelled as the identifier itself. -/
def fio_pinToBit (pin : Nat) : Nat := pin

/-- Modelled from the spec: `fio_pinToOutputRegister` of the missing FastIO
layer resolves a pin identifier to a low-level output-register handle; the
handle is opaque to this driver, so it is modelled as the identifier itself. -/
def fio_pinToOutputRegister (pin : Nat) : Nat := pin

/-- The driver's instance fields, named as in the C++ class. -/
structure State where
  _data : Nat
  _clk : Nat
  _strobe : Nat
  _data_reg : Nat
  _clk_reg : Nat
  _strobe_reg : Nat
  _En : Nat
  _Rw : Nat
  _Rs : Nat
  _data_pins : Fin 4 → Nat
  _backlightPinMask : Nat
  _backlightStsMask : Nat
  _polarity : t_backlighPol
  _displayfunction : Nat

/-- Low-level events produced by `loadSR` on the three physical lines. -/
inductive Event where
  | shiftBit (b : Bool)
  | strobeHigh
  | strobeLow
  | waitUs (t : Nat)
deriving DecidableEq, Repr

/-- Bit-order flag of the platform shift-out primitive (Arduino `MSBFIRST`
vs `LSBFIRST`). -/
inductive BitOrder where
  | MSBFIRST
  | LSBFIRST
deriving DecidableEq, Repr

/-- Modelled from the spec: `fio_shiftOut` of the missing FastIO layer
serializes one byte onto the data line, pulsing the clock once per bit,
most-significant-bit first when the order flag is `MSBFIRST`. -/
def fio_shiftOut (value : Nat) (order : BitOrder) : List Event :=
  match order with
  | BitOrder.MSBFIRST => (List.range 8).reverse.map (fun i => Event.shiftBit (value.testBit i))
  | BitOrder.LSBFIRST => (List.range 8).map (fun i => Event.shiftBit (value.testBit i))

/-- `loadSR(value)` (source lines 257-270): shift the byte out MSB first,
then raise strobe, wait 1 us (`waitUsec(1)`), lower strobe, and wait 40 us
(`waitUsec(40)`).  The strobe pulse sits inside an `ATOMIC_BLOCK`, which has
no observable effect on the single-threaded event trace modelled here.
`waitUsec(n)` busy-waits for at least `n` microseconds and is recorded as a
`waitUs n` event. -/
def loadSR (value : Nat) : List Event :=
  fio_shiftOut value BitOrder.MSBFIRST ++
    [Event.strobeHigh, Event.waitUs 1, Event.strobeLow, Event.waitUs 40]

/-- The pin-mapping loop of `write4bits` (source lines 235-242): for each
index `i` in order, OR `_data_pins[i]` into the accumulator when the current
low bit of `value` is set, then shift `value` right by one. -/
def pinMapFold (pins : Fin 4 → Nat) : List (Fin 4) → Nat → Nat → Nat
  | [], _, acc => acc
  | i :: is, value, acc =>
      pinMapFold pins is (value >>> 1) (if value &&& 1 = 1 then acc ||| pins i else acc)

/-- The value of `pinMapValue` after the loop of `write4bits`, indices 0-3. -/
def pinMapValue (pins : Fin 4 → Nat) (value : Nat) : Nat :=
  pinMapFold pins [0, 1, 2, 3] value 0

/-- `write4bits(value, mode)` (source lines 229-254), returned as the list of
byte arguments passed to `loadSR`, in order.  The C expression
`pinMapValue & ~_En` computes an 8-bit clear of the Enable mask; on the
in-range values the driver produces, it equals `&&& (255 ^^^ _En)`. -/
def write4bits (st : State) (value mode : Nat) : List Nat :=
  let pm0 := pinMapValue st._data_pins value
  let mode' := if mode = DATA then st._Rs else mode
  let pinMap := pm0 ||| (mode' ||| st._backlightStsMask)
  [pinMap ||| st._En, pinMap &&& (255 ^^^ st._En)]

/-- `send(value, mode)` (source lines 149-164), returned as the concatenated
`loadSR` byte trace of the `write4bits` calls it makes. -/
def send (st : State) (value mode : Nat) : List Nat :=
  if mode = FOUR_BITS then
    write4bits st (value &&& 0x0F) COMMAND
  else
    write4bits st (value >>> 4) mode ++ write4bits st (value &&& 0x0F) mode

/-- `setBacklightPin(value, pol)` (source lines 167-171): store
`1 << value` (truncated to `uint8_t`) as the backlight pin mask and record
the polarity.  Issues no shift-register load. -/
def setBacklightPin (st : State) (value : Nat) (pol : t_backlighPol) : State :=
  { st with _backlightPinMask := (1 <<< value) % 256, _polarity := pol }

/-- `setBacklight(value)` (source lines 173-192): when a backlight pin mask
is configured, recompute the status mask from the polarity and the level and
load the shift register with exactly that mask; otherwise do nothing.
Returns the new state and the list of `loadSR` byte arguments. -/
def setBacklight (st : State) (value : Nat) : State × List Nat :=
  if st._backlightPinMask ≠ 0 then
    let sts :=
      if (st._polarity = POSITIVE ∧ 0 < value) ∨ (st._polarity = NEGATIVE ∧ value = 0) then
        st._backlightPinMask &&& LCD_BACKLIGHT
      else
        st._backlightPinMask &&& LCD_NOBACKLIGHT
    ({ st with _backlightStsMask := sts }, [sts])
  else
    (st, [])

/-- `init(data, clk, strobe, Rs, Rw, En, d4, d5, d6, d7)` (source lines
198-227): resolve the three physical lines, set the default backlight and
display-function state, and store `1 << position` (as `uint8_t`) for every
LCD signal.  Returns the state, the C return value, and the (empty) list of
`loadSR` calls made. -/
def init (data clk strobe Rs Rw En d4 d5 d6 d7 : Nat) : State × Nat × List Nat :=
  ({ _data := fio_pinToBit data
     _clk := fio_pinToBit clk
     _strobe := fio_pinToBit strobe
     _data_reg := fio_pinToOutputRegister data
     _clk_reg := fio_pinToOutputRegister clk
     _strobe_reg := fio_pinToOutputRegister strobe
     _backlightPinMask := 0
     _backlightStsMask := LCD_NOBACKLIGHT
     _polarity := POSITIVE
     _En := (1 <<< En) % 256
     _Rw := (1 <<< Rw) % 256
     _Rs := (1 <<< Rs) % 256
     _data_pins := ![(1 <<< d4) % 256, (1 <<< d5) % 256, (1 <<< d6) % 256, (1 <<< d7) % 256]
     _displayfunction := LCD_4BITMODE ||| LCD_1LINE ||| LCD_5x10DOTS }, 1, [])

/-- The 3-argument constructor (source lines 122-125):
`init(data, clk, strobe, RS, RW, EN, D4, D5, D6, D7)`. -/
def ctor3 (data clk strobe : Nat) : State × Nat × List Nat :=
  init data clk strobe RS RW EN D4 D5 D6 D7

/-- The constructor with a backlight pin and polarity (source lines 127-131):
its body ignores `backlighPin` and `pol` and calls `init` exactly as the
3-argument constructor does. -/
def ctor3bl (data clk strobe backlighPin : Nat) (pol : t_backlighPol) : State × Nat × List Nat :=
  init data clk strobe RS RW EN D4 D5 D6 D7

/-- The fully-custom constructor (source lines 133-138).  Note the argument
order: the constructor declares `(En, Rw, Rs, d4..d7)` but calls
`init(data, clk, strobe, En, Rw, En, d4..d7)`, so `init`'s `Rs` parameter
receives the constructor's `En` and the `Rs` argument is never used. -/
def ctorFull (data clk strobe En Rw Rs d4 d5 d6 d7 : Nat) : State × Nat × List Nat :=
  init data clk strobe En Rw En d4 d5 d6 d7

/-- The fully-custom constructor with a backlight pin and polarity (source
lines 140-146): same `init` call as `ctorFull`, ignoring `backlighPin` and
`pol`. -/
def ctorFullbl (data clk strobe En Rw Rs d4 d5 d6 d7 backlighPin : Nat)
    (pol : t_backlighPol) : State × Nat × List Nat :=
  init data clk strobe En Rw En d4 d5 d6 d7

/-! ### Shared helper lemmas -/

/-- Unfolding the pin-mapping loop: for a nibble `v`, `pinMapValue` is the OR
of the pin masks selected by the bits of `v`. -/
theorem pinMapValue_eq (pins : Fin 4 → Nat) (v : Nat) (hv : v < 16) :
    pinMapValue pins v =
      (if v.testBit 0 then pins 0 else 0) ||| ((if v.testBit 1 then pins 1 else 0) |||
        ((if v.testBit 2 then pins 2 else 0) ||| (if v.testBit 3 then pins 3 else 0))) := by
  interval_cases v <;>
    simp [pinMapValue, pinMapFold, Nat.or_assoc, Nat.testBit, Nat.shiftRight_succ]

theorem if_bool_and (c x : Bool) : (if c then x else false) = (c && x) := by
  cases c <;> simp

theorem testBit_255 (k : Nat) : (255 : Nat).testBit k = decide (k < 8) := by
  have h : (255 : Nat) = 2 ^ 8 - 1 := by norm_num
  rw [h, Nat.testBit_two_pow_sub_one]

/-- Bit `j` of the byte composed by `write4bits` from single-bit pin masks:
each data-pin position contributes the corresponding bit of the nibble, the
Register-Select position contributes exactly when the mode is DATA, and the
backlight status mask contributes its own bit. -/
theorem composed_testBit (pins : Fin 4 → Nat) (q0 q1 q2 q3 rs v mode bsts j : Nat)
    (hv : v < 16) (hmode : mode = COMMAND ∨ mode = DATA)
    (hp0 : pins 0 = 2 ^ q0) (hp1 : pins 1 = 2 ^ q1)
    (hp2 : pins 2 = 2 ^ q2) (hp3 : pins 3 = 2 ^ q3) :
    (pinMapValue pins v ||| ((if mode = DATA then (2 ^ rs : Nat) else mode) ||| bsts)).testBit j
      = ((v.testBit 0 && decide (q0 = j)) || ((v.testBit 1 && decide (q1 = j)) ||
         ((v.testBit 2 && decide (q2 = j)) || ((v.testBit 3 && decide (q3 = j)) ||
         ((decide (mode = DATA) && decide (rs = j)) || bsts.testBit j))))) := by
  rw [pinMapValue_eq pins v hv, hp0, hp1, hp2, hp3]
  rcases hmode with hm | hm <;> subst hm <;>
    simp [COMMAND, DATA, Nat.testBit_or, apply_ite (fun x => Nat.testBit x j),
      Nat.testBit_two_pow, if_bool_and, Bool.or_assoc]

/-- The composed byte stays below 2^8 when every configured position is below
8 and the backlight status mask is an 8-bit value. -/
theorem composed_lt (pins : Fin 4 → Nat) (q0 q1 q2 q3 rs v mode bsts : Nat)
    (hv : v < 16) (hmode : mode = COMMAND ∨ mode = DATA)
    (hp0 : pins 0 = 2 ^ q0) (hp1 : pins 1 = 2 ^ q1)
    (hp2 : pins 2 = 2 ^ q2) (hp3 : pins 3 = 2 ^ q3)
    (hq0 : q0 < 8) (hq1 : q1 < 8) (hq2 : q2 < 8) (hq3 : q3 < 8) (hrs : rs < 8)
    (hb : bsts < 2 ^ 8) :
    pinMapValue pins v ||| ((if mode = DATA then (2 ^ rs : Nat) else mode) ||| bsts) < 2 ^ 8 := by
  rw [pinMapValue_eq pins v hv, hp0, hp1, hp2, hp3]
  have hite : ∀ (c : Bool) (p : Nat), p < 8 → (if c then (2 : Nat) ^ p else 0) < 2 ^ 8 := by
    intro c p hp
    cases c
    · simpa using Nat.pos_pow_of_pos 8 (by norm_num)
    · simpa using Nat.pow_lt_pow_right one_lt_two hp
  refine Nat.or_lt_two_pow
    (Nat.or_lt_two_pow (hite _ _ hq0)
      (Nat.or_lt_two_pow (hite _ _ hq1) (Nat.or_lt_two_pow (hite _ _ hq2) (hite _ _ hq3))))
    (Nat.or_lt_two_pow ?_ hb)
  rcases hmode with hm | hm <;> subst hm
  · simpa [COMMAND, DATA] using Nat.pos_pow_of_pos 8 (by norm_num)
  · simpa using Nat.pow_lt_pow_right one_lt_two hrs

/-! ### C1 -/

/-- C1: for every 4-bit value `v` and mode in (COMMAND, DATA), `write4bits`
composes a byte `pm` whose bit at each configured data-pin position equals
the corresponding bit of `v`, whose Register-Select bit is set exactly when
the mode is DATA, and whose Read/Write bit is clear; it issues exactly two
shift-register loads, the first being `pm` with the Enable bit set (and the
Read/Write bit still clear), the second identical to the first except that
the Enable bit is cleared. -/
theorem write4bits_composes_and_pulses
    (st : State) (en rw rs q0 q1 q2 q3 v mode : Nat)
    (hv : v < 16) (hmode : mode = COMMAND ∨ mode = DATA)
    (hen8 : en < 8) (hrs8 : rs < 8)
    (hq08 : q0 < 8) (hq18 : q1 < 8) (hq28 : q2 < 8) (hq38 : q3 < 8)
    (hEn : st._En = 2 ^ en) (hRw : st._Rw = 2 ^ rw) (hRs : st._Rs = 2 ^ rs)
    (hp0 : st._data_pins 0 = 2 ^ q0) (hp1 : st._data_pins 1 = 2 ^ q1)
    (hp2 : st._data_pins 2 = 2 ^ q2) (hp3 : st._data_pins 3 = 2 ^ q3)
    (h01 : q0 ≠ q1) (h02 : q0 ≠ q2) (h03 : q0 ≠ q3)
    (h12 : q1 ≠ q2) (h13 : q1 ≠ q3) (h23 : q2 ≠ q3)
    (hrs0 : rs ≠ q0) (hrs1 : rs ≠ q1) (hrs2 : rs ≠ q2) (hrs3 : rs ≠ q3)
    (hrw0 : rw ≠ q0) (hrw1 : rw ≠ q1) (hrw2 : rw ≠ q2) (hrw3 : rw ≠ q3)
    (hrwrs : rw ≠ rs) (henrw : en ≠ rw)
    (hb : st._backlightStsMask < 256)
    (hb0 : st._backlightStsMask.testBit q0 = false)
    (hb1 : st._backlightStsMask.testBit q1 = false)
    (hb2 : st._backlightStsMask.testBit q2 = false)
    (hb3 : st._backlightStsMask.testBit q3 = false)
    (hbrs : st._backlightStsMask.testBit rs = false)
    (hbrw : st._backlightStsMask.testBit rw = false) :
    ∃ pm,
      write4bits st v mode = [pm ||| st._En, pm &&& (255 ^^^ st._En)] ∧
      pm.testBit q0 = v.testBit 0 ∧ pm.testBit q1 = v.testBit 1 ∧
      pm.testBit q2 = v.testBit 2 ∧ pm.testBit q3 = v.testBit 3 ∧
      pm.testBit rs = decide (mode = DATA) ∧
      pm.testBit rw = false ∧
      (pm ||| st._En).testBit en = true ∧
      (pm ||| st._En).testBit rw = false ∧
      (∀ j, (pm &&& (255 ^^^ st._En)).testBit j =
          ((pm ||| st._En).testBit j && decide (j ≠ en))) := by
  refine ⟨pinMapValue st._data_pins v |||
      ((if mode = DATA then st._Rs else mode) ||| st._backlightStsMask), rfl,
      ?_, ?_, ?_, ?_, ?_, ?_, ?_, ?_, ?_⟩
  all_goals rw [hRs] at *
  · rw [composed_testBit st._data_pins q0 q1 q2 q3 rs v mode _ q0 hv hmode hp0 hp1 hp2 hp3]
    simp [Ne.symm h01, Ne.symm h02, Ne.symm h03, hrs0, hb0]
  · rw [composed_testBit st._data_pins q0 q1 q2 q3 rs v mode _ q1 hv hmode hp0 hp1 hp2 hp3]
    simp [h01, Ne.symm h12, Ne.symm h13, hrs1, hb1]
  · rw [composed_testBit st._data_pins q0 q1 q2 q3 rs v mode _ q2 hv hmode hp0 hp1 hp2 hp3]
    simp [h02, h12, Ne.symm h23, hrs2, hb2]
  · rw [composed_testBit st._data_pins q0 q1 q2 q3 rs v mode _ q3 hv hmode hp0 hp1 hp2 hp3]
    simp [h03, h13, h23, hrs3, hb3]
  · rw [composed_testBit st._data_pins q0 q1 q2 q3 rs v mode _ rs hv hmode hp0 hp1 hp2 hp3]
    simp [Ne.symm hrs0, Ne.symm hrs1, Ne.symm hrs2, Ne.symm hrs3, hbrs]
  · rw [composed_testBit st._data_pins q0 q1 q2 q3 rs v mode _ rw hv hmode hp0 hp1 hp2 hp3]
    simp [Ne.symm hrw0, Ne.symm hrw1, Ne.symm hrw2, Ne.symm hrw3, Ne.symm hrwrs, hbrw]
  · rw [hEn]
    simp [Nat.testBit_or, Nat.testBit_two_pow_self]
  · rw [hEn, Nat.testBit_or,
      composed_testBit st._data_pins q0 q1 q2 q3 rs v mode _ rw hv hmode hp0 hp1 hp2 hp3]
    simp [Ne.symm hrw0, Ne.symm hrw1, Ne.symm hrw2, Ne.symm hrw3, Ne.symm hrwrs, hbrw,
      Nat.testBit_two_pow, henrw]
  · intro j
    have hlt : pinMapValue st._data_pins v |||
        ((if mode = DATA then (2 ^ rs : Nat) else mode) ||| st._backlightStsMask) < 2 ^ 8 :=
      composed_lt st._data_pins q0 q1 q2 q3 rs v mode _ hv hmode hp0 hp1 hp2 hp3
        hq08 hq18 hq28 hq38 hrs8 (by norm_num at hb ⊢; exact hb)
    rw [hEn, Nat.testBit_and, Nat.testBit_or, Nat.testBit_xor, testBit_255, Nat.testBit_two_pow]
    by_cases hj : j < 8
    · by_cases hje : j = en
      · subst hje
        simp [hj]
      · simp [hj, Ne.symm hje, hje]
    · have hpmj : (pinMapValue st._data_pins v |||
          ((if mode = DATA then (2 ^ rs : Nat) else mode) ||| st._backlightStsMask)).testBit j
            = false := by
        refine Nat.testBit_eq_false_of_lt (lt_of_lt_of_le hlt ?_)
        exact Nat.pow_le_pow_right (by norm_num) (by omega)
      have hen_ne : ¬ en = j := by omega
      simp [hpmj, hj, hen_ne]

/-! ### Demo states used by the witnesses -/

/-- A driver constructed with the default pin mapping (`ctor3`): Enable at
bit 4, Read/Write at bit 5, Register-Select at bit 6, D4-D7 at bits 0-3. -/
def demoState : State := (ctor3 1 2 3).1

/-- The default driver after configuring the backlight at bit 7 with the
POSITIVE (active-high) polarity. -/
def demoStateBL : State := setBacklightPin demoState 7 POSITIVE

/-- Witness for C1: the default pin mapping with nibble 10 sent as DATA. -/
theorem write4bits_composes_and_pulses_witness :
    ((10 : Nat) < 16 ∧ (DATA = COMMAND ∨ DATA = DATA) ∧
      (4 : Nat) < 8 ∧ (6 : Nat) < 8 ∧
      (0 : Nat) < 8 ∧ (1 : Nat) < 8 ∧ (2 : Nat) < 8 ∧ (3 : Nat) < 8 ∧
      demoState._En = 2 ^ 4 ∧ demoState._Rw = 2 ^ 5 ∧ demoState._Rs = 2 ^ 6 ∧
      demoState._data_pins 0 = 2 ^ 0 ∧ demoState._data_pins 1 = 2 ^ 1 ∧
      demoState._data_pins 2 = 2 ^ 2 ∧ demoState._data_pins 3 = 2 ^ 3 ∧
      demoState._backlightStsMask < 256 ∧
      demoState._backlightStsMask.testBit 0 = false ∧
      demoState._backlightStsMask.testBit 6 = false ∧
      demoState._backlightStsMask.testBit 5 = false) ∧
    (∃ pm,
      write4bits demoState 10 DATA = [pm ||| demoState._En, pm &&& (255 ^^^ demoState._En)] ∧
      pm.testBit 0 = (10 : Nat).testBit 0 ∧ pm.testBit 1 = (10 : Nat).testBit 1 ∧
      pm.testBit 2 = (10 : Nat).testBit 2 ∧ pm.testBit 3 = (10 : Nat).testBit 3 ∧
      pm.testBit 6 = decide (DATA = DATA) ∧
      pm.testBit 5 = false ∧
      (pm ||| demoState._En).testBit 4 = true ∧
      (pm ||| demoState._En).testBit 5 = false ∧
      (∀ j, (pm &&& (255 ^^^ demoState._En)).testBit j =
          ((pm ||| demoState._En).testBit j && decide (j ≠ 4)))) :=
  ⟨by decide,
    write4bits_composes_and_pulses demoState 4 5 6 0 1 2 3 10 DATA
      (by decide) (Or.inr rfl) (by decide) (by decide) (by decide) (by decide)
      (by decide) (by decide) (by decide) (by decide) (by decide) (by decide)
      (by decide) (by decide) (by decide) (by decide) (by decide) (by decide)
      (by decide) (by decide) (by decide) (by decide) (by decide) (by decide)
      (by decide) (by decide) (by decide) (by decide) (by decide) (by decide)
      (by decide) (by decide) (by decide) (by decide) (by decide) (by decide)
      (by decide) (by decide)⟩

/-! ### C2 -/

/-- C2: for every byte `v` and mode in (COMMAND, DATA), `send` issues exactly
two `write4bits` calls in order, the first on the high nibble `v >>> 4`, the
second on the low nibble `v &&& 0x0F`, both with the same mode, so its load
trace is their concatenation and holds exactly four loads. -/
theorem send_two_nibbles (st : State) (v mode : Nat)
    (hmode : mode = COMMAND ∨ mode = DATA) :
    send st v mode = write4bits st (v >>> 4) mode ++ write4bits st (v &&& 0x0F) mode ∧
    (send st v mode).length = 4 := by
  have hne : ¬ mode = FOUR_BITS := by
    rcases hmode with h | h <;> subst h <;> simp [COMMAND, DATA, FOUR_BITS]
  constructor
  · simp [send, hne]
  · simp [send, hne, write4bits]

/-- Witness for C2: byte 0xA5 sent as COMMAND on the default mapping. -/
theorem send_two_nibbles_witness :
    (COMMAND = COMMAND ∨ COMMAND = DATA) ∧
    (send demoState 165 COMMAND =
        write4bits demoState (165 >>> 4) COMMAND ++ write4bits demoState (165 &&& 0x0F) COMMAND ∧
      (send demoState 165 COMMAND).length = 4) :=
  ⟨Or.inl rfl, send_two_nibbles demoState 165 COMMAND (Or.inl rfl)⟩

/-! ### C3 -/

/-- C3: `send v FOUR_BITS` issues exactly one `write4bits` call, on the low
nibble `v &&& 0x0F` with mode COMMAND, so its load trace is that single
call's trace and holds exactly two loads; the trace mentions only the low
nibble of `v`, so the high nibble is never transmitted. -/
theorem send_four_bits_low_nibble (st : State) (v : Nat) :
    send st v FOUR_BITS = write4bits st (v &&& 0x0F) COMMAND ∧
    (send st v FOUR_BITS).length = 2 := by
  constructor
  · simp [send]
  · simp [send, write4bits]

/-! ### C4 -/

/-- C4: evaluating the fully-custom constructor at the distinct positions
En = 4, Rw = 5, Rs = 6 (data pins 0-3) shows that the stored Register-Select
mask is `1 <<< 4 = _En`, not `1 <<< 6`: the constructor body passes its `En`
argument where `init` expects `Rs`, so the `Rs` argument is ignored and the
Register-Select mask collides with the Enable mask. -/
theorem ctorFull_rs_mask_collides_with_en :
    ((ctorFull 1 2 3 4 5 6 0 1 2 3).1)._Rs = 2 ^ 4 ∧
    ((ctorFull 1 2 3 4 5 6 0 1 2 3).1)._En = 2 ^ 4 ∧
    ((ctorFull 1 2 3 4 5 6 0 1 2 3).1)._Rs ≠ 2 ^ 6 ∧
    ((ctorFullbl 1 2 3 4 5 6 0 1 2 3 7 POSITIVE).1)._Rs = 2 ^ 4 ∧
    ((ctorFullbl 1 2 3 4 5 6 0 1 2 3 7 POSITIVE).1)._Rs ≠ 2 ^ 6 := by
  decide

/-! ### C5 -/

/-- Both bytes loaded by `write4bits` have bit `j` set whenever the stored
backlight status mask has bit `j` set, provided `j` is an in-range position
other than the Enable position (the second load clears only Enable). -/
theorem write4bits_testBit_of_sts (st : State) (en w m j : Nat)
    (hEn : st._En = 2 ^ en) (hj8 : j < 8) (henj : en ≠ j)
    (hsts : st._backlightStsMask.testBit j = true) :
    ∀ b ∈ write4bits st w m, b.testBit j = true := by
  intro b hb
  simp only [write4bits, List.mem_cons, List.not_mem_nil, or_false] at hb
  rcases hb with hb | hb <;> subst hb <;>
    simp [hEn, Nat.testBit_or, Nat.testBit_and, Nat.testBit_xor, testBit_255,
      Nat.testBit_two_pow, hsts, hj8, henj]

/-- Both bytes loaded by `write4bits` have bit `j` clear whenever `j` is not
a configured data-pin, Register-Select or Enable position and the stored
backlight status mask has bit `j` clear. -/
theorem write4bits_testBit_of_clear (st : State) (en rs q0 q1 q2 q3 w m j : Nat)
    (hw : w < 16) (hm : m = COMMAND ∨ m = DATA)
    (hEn : st._En = 2 ^ en) (hRs : st._Rs = 2 ^ rs)
    (hp0 : st._data_pins 0 = 2 ^ q0) (hp1 : st._data_pins 1 = 2 ^ q1)
    (hp2 : st._data_pins 2 = 2 ^ q2) (hp3 : st._data_pins 3 = 2 ^ q3)
    (hq0j : q0 ≠ j) (hq1j : q1 ≠ j) (hq2j : q2 ≠ j) (hq3j : q3 ≠ j)
    (hrsj : rs ≠ j) (henj : en ≠ j)
    (hsts : st._backlightStsMask.testBit j = false) :
    ∀ b ∈ write4bits st w m, b.testBit j = false := by
  intro b hb
  have hpm : (pinMapValue st._data_pins w |||
      ((if m = DATA then st._Rs else m) ||| st._backlightStsMask)).testBit j = false := by
    rw [hRs, composed_testBit st._data_pins q0 q1 q2 q3 rs w m _ j hw hm hp0 hp1 hp2 hp3]
    simp [hq0j, hq1j, hq2j, hq3j, hrsj, hsts]
  simp only [write4bits, List.mem_cons, List.not_mem_nil, or_false] at hb
  rcases hb with hb | hb <;> subst hb
  · simp [Nat.testBit_or, hEn, Nat.testBit_two_pow, hpm, henj]
  · simp [Nat.testBit_and, hpm]

/-- C5: with the backlight configured at position `pb` and POSITIVE
(active-high) polarity, `setBacklight v` with `v > 0` stores the mask
`2 ^ pb` and every byte loaded by a subsequent `write4bits` has bit `pb`
set; `setBacklight 0` stores 0 and every such byte has bit `pb` clear.
`write4bits`, `send` and `loadSR` take the state unmutated (they are
read-only in the source, which the embedding reflects by their types), and
`setBacklightPin`, the only other state-mutating operation, leaves the
stored backlight status mask unchanged. -/
theorem backlight_status_persists
    (st : State) (en rs q0 q1 q2 q3 pb : Nat)
    (hen8 : en < 8) (hpb8 : pb < 8)
    (hEn : st._En = 2 ^ en) (hRs : st._Rs = 2 ^ rs)
    (hp0 : st._data_pins 0 = 2 ^ q0) (hp1 : st._data_pins 1 = 2 ^ q1)
    (hp2 : st._data_pins 2 = 2 ^ q2) (hp3 : st._data_pins 3 = 2 ^ q3)
    (hmask : st._backlightPinMask = 2 ^ pb)
    (hpol : st._polarity = POSITIVE)
    (hen_pb : en ≠ pb) (hrs_pb : rs ≠ pb)
    (h0pb : q0 ≠ pb) (h1pb : q1 ≠ pb) (h2pb : q2 ≠ pb) (h3pb : q3 ≠ pb) :
    (∀ v, 0 < v →
      ((setBacklight st v).1._backlightStsMask = 2 ^ pb ∧
        ∀ w m, w < 16 → (m = COMMAND ∨ m = DATA) →
          ∀ b ∈ write4bits (setBacklight st v).1 w m, b.testBit pb = true)) ∧
    ((setBacklight st 0).1._backlightStsMask = 0 ∧
      ∀ w m, w < 16 → (m = COMMAND ∨ m = DATA) →
        ∀ b ∈ write4bits (setBacklight st 0).1 w m, b.testBit pb = false) ∧
    (∀ p pol, (setBacklightPin st p pol)._backlightStsMask = st._backlightStsMask) := by
  have hand : (2 : Nat) ^ pb &&& 255 = 2 ^ pb := by
    have h2 : (2 : Nat) ^ pb &&& 255 = 2 ^ pb % 256 :=
      Nat.and_pow_two_sub_one_eq_mod _ 8
    rw [h2, Nat.mod_eq_of_lt]
    calc (2 : Nat) ^ pb < 2 ^ 8 := Nat.pow_lt_pow_right one_lt_two hpb8
    _ = 256 := by norm_num
  refine ⟨?_, ⟨?_, ?_⟩, fun p pol => rfl⟩
  · intro v hv
    have hst1 : (setBacklight st v).1 = { st with _backlightStsMask := 2 ^ pb } := by
      simp [setBacklight, hmask, hpol, hv, LCD_BACKLIGHT, hand, Nat.pos_iff_ne_zero.mp hv]
    refine ⟨by rw [hst1], ?_⟩
    intro w m hw hm b hb
    rw [hst1] at hb
    exact write4bits_testBit_of_sts { st with _backlightStsMask := 2 ^ pb } en w m pb
      hEn hpb8 hen_pb (by simp [Nat.testBit_two_pow_self]) b hb
  · simp [setBacklight, hmask, hpol, LCD_NOBACKLIGHT]
  · intro w m hw hm b hb
    have hst0 : (setBacklight st 0).1 = { st with _backlightStsMask := 0 } := by
      simp [setBacklight, hmask, hpol, LCD_NOBACKLIGHT]
    rw [hst0] at hb
    exact write4bits_testBit_of_clear { st with _backlightStsMask := 0 }
      en rs q0 q1 q2 q3 w m pb hw hm hEn hRs
      hp0 hp1 hp2 hp3 h0pb h1pb h2pb h3pb hrs_pb hen_pb (Nat.zero_testBit pb) b hb

/-- Witness for C5: default mapping, backlight at bit 7, POSITIVE polarity. -/
theorem backlight_status_persists_witness :
    ((4 : Nat) < 8 ∧ (7 : Nat) < 8 ∧
      demoStateBL._En = 2 ^ 4 ∧ demoStateBL._Rs = 2 ^ 6 ∧
      demoStateBL._data_pins 0 = 2 ^ 0 ∧ demoStateBL._data_pins 1 = 2 ^ 1 ∧
      demoStateBL._data_pins 2 = 2 ^ 2 ∧ demoStateBL._data_pins 3 = 2 ^ 3 ∧
      demoStateBL._backlightPinMask = 2 ^ 7 ∧
      demoStateBL._polarity = POSITIVE ∧
      (4 : Nat) ≠ 7 ∧ (6 : Nat) ≠ 7 ∧
      (0 : Nat) ≠ 7 ∧ (1 : Nat) ≠ 7 ∧ (2 : Nat) ≠ 7 ∧ (3 : Nat) ≠ 7) ∧
    ((∀ v, 0 < v →
      ((setBacklight demoStateBL v).1._backlightStsMask = 2 ^ 7 ∧
        ∀ w m, w < 16 → (m = COMMAND ∨ m = DATA) →
          ∀ b ∈ write4bits (setBacklight demoStateBL v).1 w m, b.testBit 7 = true)) ∧
    ((setBacklight demoStateBL 0).1._backlightStsMask = 0 ∧
      ∀ w m, w < 16 → (m = COMMAND ∨ m = DATA) →
        ∀ b ∈ write4bits (setBacklight demoStateBL 0).1 w m, b.testBit 7 = false) ∧
    (∀ p pol, (setBacklightPin demoStateBL p pol)._backlightStsMask =
      demoStateBL._backlightStsMask)) :=
  ⟨by decide,
    backlight_status_persists demoStateBL 4 6 0 1 2 3 7
      (by decide) (by decide) (by decide) (by decide) (by decide) (by decide)
      (by decide) (by decide) (by decide) (by decide) (by decide) (by decide)
      (by decide) (by decide) (by decide) (by decide)⟩

/-! ### C6 -/

/-- C6: with a backlight pin configured, `setBacklight level` stores the pin
mask as the status mask exactly when (POSITIVE and level > 0) or (NEGATIVE
and level = 0), stores zero otherwise, and issues exactly one load whose
byte is the new status mask. -/
theorem setBacklight_updates_and_loads (st : State) (v : Nat)
    (h : st._backlightPinMask ≠ 0) (h256 : st._backlightPinMask < 256) :
    (setBacklight st v).2 = [((setBacklight st v).1)._backlightStsMask] ∧
    ((setBacklight st v).1)._backlightStsMask =
      (if (st._polarity = POSITIVE ∧ 0 < v) ∨ (st._polarity = NEGATIVE ∧ v = 0)
       then st._backlightPinMask else 0) := by
  have hand : st._backlightPinMask &&& 255 = st._backlightPinMask := by
    have h2 : st._backlightPinMask &&& 255 = st._backlightPinMask % 256 :=
      Nat.and_pow_two_sub_one_eq_mod st._backlightPinMask 8
    rw [h2, Nat.mod_eq_of_lt h256]
  constructor
  · simp [setBacklight, h]
  · by_cases hc : (st._polarity = POSITIVE ∧ 0 < v) ∨ (st._polarity = NEGATIVE ∧ v = 0)
    · simp [setBacklight, h, hc, LCD_BACKLIGHT, hand]
    · simp [setBacklight, h, hc, LCD_NOBACKLIGHT]

/-- Witness for C6: backlight at bit 7, POSITIVE polarity, level 1. -/
theorem setBacklight_updates_and_loads_witness :
    (demoStateBL._backlightPinMask ≠ 0 ∧ demoStateBL._backlightPinMask < 256) ∧
    ((setBacklight demoStateBL 1).2 = [((setBacklight demoStateBL 1).1)._backlightStsMask] ∧
      ((setBacklight demoStateBL 1).1)._backlightStsMask =
        (if (demoStateBL._polarity = POSITIVE ∧ 0 < 1) ∨
            (demoStateBL._polarity = NEGATIVE ∧ 1 = 0)
         then demoStateBL._backlightPinMask else 0)) :=
  ⟨by decide, setBacklight_updates_and_loads demoStateBL 1 (by decide) (by decide)⟩

/-! ### C7 -/

theorem setBacklight_of_mask_zero (st : State) (v : Nat)
    (h : st._backlightPinMask = 0) : setBacklight st v = (st, []) := by
  simp [setBacklight, h]

/-- C7: with no backlight pin configured (mask zero), `setBacklight` issues
no shift-register load and returns the state unchanged. -/
theorem setBacklight_noop_without_pin (st : State) (v : Nat)
    (h : st._backlightPinMask = 0) : setBacklight st v = (st, []) :=
  setBacklight_of_mask_zero st v h

/-- Witness for C7: the freshly constructed default driver has mask zero. -/
theorem setBacklight_noop_without_pin_witness :
    demoState._backlightPinMask = 0 ∧ setBacklight demoState 3 = (demoState, []) :=
  ⟨by decide, setBacklight_noop_without_pin demoState 3 (by decide)⟩

/-! ### C8 -/

/-- C8: `loadSR b` serializes the byte most-significant-bit first (bits 7
down to 0), then raises the strobe line, waits at least 1 microsecond,
lowers the strobe line, and waits at least 40 microseconds before
returning. -/
theorem loadSR_msb_first_strobe_waits (b : Nat) :
    ∃ t1 t2,
      loadSR b =
        [Event.shiftBit (b.testBit 7), Event.shiftBit (b.testBit 6),
         Event.shiftBit (b.testBit 5), Event.shiftBit (b.testBit 4),
         Event.shiftBit (b.testBit 3), Event.shiftBit (b.testBit 2),
         Event.shiftBit (b.testBit 1), Event.shiftBit (b.testBit 0),
         Event.strobeHigh, Event.waitUs t1, Event.strobeLow, Event.waitUs t2] ∧
      1 ≤ t1 ∧ 40 ≤ t2 :=
  ⟨1, 40, rfl, Nat.le_refl 1, by norm_num⟩

/-! ### C9 -/

/-- C9: `init` returns the success indicator 1 for every argument
combination, performs no shift-register load, and establishes the defaults:
backlight pin mask 0, backlight status mask 0, polarity POSITIVE, and the
4-bit / 1-line / 5x10-dot display function. -/
theorem init_always_succeeds (data clk strobe Rs Rw En d4 d5 d6 d7 : Nat) :
    (init data clk strobe Rs Rw En d4 d5 d6 d7).2.1 = 1 ∧
    (init data clk strobe Rs Rw En d4 d5 d6 d7).2.2 = [] ∧
    (init data clk strobe Rs Rw En d4 d5 d6 d7).1._backlightPinMask = 0 ∧
    (init data clk strobe Rs Rw En d4 d5 d6 d7).1._backlightStsMask = 0 ∧
    (init data clk strobe Rs Rw En d4 d5 d6 d7).1._polarity = POSITIVE ∧
    (init data clk strobe Rs Rw En d4 d5 d6 d7).1._displayfunction =
      (LCD_4BITMODE ||| LCD_1LINE ||| LCD_5x10DOTS) :=
  ⟨rfl, rfl, rfl, rfl, rfl, rfl⟩

/-! ### C10 -/

/-- C10: the two constructors that accept a backlight pin and polarity leave
those arguments without effect: they produce exactly the state of the
corresponding constructor without them, so the backlight pin mask is 0, the
polarity is the default POSITIVE, and `setBacklight` is a no-op on the
constructed state. -/
theorem backlight_ctor_args_ignored (data clk strobe backlighPin : Nat)
    (pol : t_backlighPol) (En Rw Rs d4 d5 d6 d7 v : Nat) :
    ctor3bl data clk strobe backlighPin pol = ctor3 data clk strobe ∧
    (ctor3bl data clk strobe backlighPin pol).1._backlightPinMask = 0 ∧
    (ctor3bl data clk strobe backlighPin pol).1._polarity = POSITIVE ∧
    setBacklight (ctor3bl data clk strobe backlighPin pol).1 v =
      ((ctor3bl data clk strobe backlighPin pol).1, []) ∧
    ctorFullbl data clk strobe En Rw Rs d4 d5 d6 d7 backlighPin pol =
      ctorFull data clk strobe En Rw Rs d4 d5 d6 d7 ∧
    (ctorFullbl data clk strobe En Rw Rs d4 d5 d6 d7 backlighPin pol).1._backlightPinMask = 0 ∧
    (ctorFullbl data clk strobe En Rw Rs d4 d5 d6 d7 backlighPin pol).1._polarity = POSITIVE ∧
    setBacklight (ctorFullbl data clk strobe En Rw Rs d4 d5 d6 d7 backlighPin pol).1 v =
      ((ctorFullbl data clk strobe En Rw Rs d4 d5 d6 d7 backlighPin pol).1, []) :=
  ⟨rfl, rfl, rfl, setBacklight_of_mask_zero _ v rfl, rfl, rfl, rfl,
    setBacklight_of_mask_zero _ v rfl⟩

end SR3W
